import Mathlib

/-!
Shallow embedding of the checkpoint token service in src/main.py.

The HTTP layer, Firestore, the ip-api geolocation call and the ShrinkMe
shortener are modelled at their interface boundary: the geolocation and
shortening providers become oracle functions passed to the handlers, the
Firestore database becomes an explicit record of token documents and user
balances, and each handler returns its result together with the updated
database and the trace of external effects it performed, in order.
Money amounts (CPM rates, rewards, balances) are rationals; every decimal
literal of the source is exactly representable.
-/

namespace Checkpoint

/-- Token status: the source stores the strings "pending" and "used" and only
ever compares against "pending". -/
inductive Status
  | pending
  | used
deriving DecidableEq, Repr

/-- Successful payload of the ip-api lookup in get_ip_info: the fields
country, countryCode and query (the confirmed IP) that the handlers read. -/
structure GeoInfo where
  country : String
  countryCode : String
  query : String
deriving DecidableEq, Repr

/-- One Firestore token document. docId is the document id, token the value
queried by the handlers; initial_ip, initial_country and token_reward are
absent until checkpoint_start stamps them. -/
structure TokenRecord where
  docId : String
  token : String
  status : Status
  userId : String
  initial_ip : Option String
  initial_country : Option String
  token_reward : Option ℚ
deriving DecidableEq, Repr

/-- The Firestore state the handlers touch: the tokens collection and the
balance field of each user document. -/
structure DB where
  tokens : List TokenRecord
  balances : String → ℚ

/-- External effects a handler performs, recorded in order: the ip-api call,
the token-collection query, a token-document update, a user-document update. -/
inductive Event
  | geoCall
  | tokenQuery
  | tokenUpdate
  | userUpdate
deriving DecidableEq, Repr

/-- Outcomes of checkpoint_start, one per return site of the source. -/
inductive StartResult
  | noOrigin
  | geoFailed
  | pingOk
  | tokenNotFound
  | shorteningFailed
  | ok (ip country : String) (reward : ℚ) (link : String)
deriving DecidableEq, Repr

/-- Outcomes of checkpoint_end, one per return site of the source; keyError
models the uncaught KeyError a dict access raises on a missing key. -/
inductive EndResult
  | tokenNotFound
  | tokenAlreadyUsed
  | noOrigin
  | geoFailed
  | originMismatch
  | keyError
  | ok (reward : ℚ)
deriving DecidableEq, Repr

/-- CPM_RATES of the source, same entries in the same order. -/
def CPM_RATES : List (String × ℚ) :=
  [("GL", 22.00), ("IE", 16.00), ("US", 11.00), ("BE", 7.50), ("GB", 7.00),
   ("CA", 6.50), ("BR", 6.50), ("NZ", 6.00), ("AU", 6.00), ("SE", 5.50),
   ("FR", 5.00), ("ES", 5.00), ("DE", 5.00), ("IN", 4.10), ("ID", 4.00),
   ("PH", 4.00), ("IT", 4.00), ("TH", 4.00), ("SA", 4.00), ("MX", 4.00)]

/-- DEFAULT_CPM of the source. -/
def DEFAULT_CPM : ℚ := 3.50

/-- CPM_RATES.get(country_code, DEFAULT_CPM): dict lookup with default. -/
def cpmRate (country_code : String) : ℚ :=
  (((CPM_RATES.find? (fun p => p.1 == country_code)).map Prod.snd).getD DEFAULT_CPM)

/-- get_token_reward of the source: tier the CPM rate into a reward. -/
def get_token_reward (country_code : String) : ℚ :=
  if cpmRate country_code ≥ 16 then 10
  else if cpmRate country_code ≥ 7 then 7.5
  else if cpmRate country_code > 3.50 then 5
  else 5

/-- BASE_API_URL of the source. -/
def BASE_API_URL : String := "https://beigeparrotfish.onpella.app"

/-- The query db.collection(tokens).where(token, ==, value).limit(1) followed
by next(stream, None): the first document whose token field matches. -/
def findToken (db : DB) (tokenValue : String) : Option TokenRecord :=
  db.tokens.find? (fun t => t.token == tokenValue)

/-- The checkpoint_start update: set initial_ip, initial_country and
token_reward on the document with the given id, touching nothing else. -/
def stampToken (tokens : List TokenRecord) (docId ip country : String) (reward : ℚ) :
    List TokenRecord :=
  tokens.map (fun t =>
    if t.docId = docId then
      { t with initial_ip := some ip, initial_country := some country,
               token_reward := some reward }
    else t)

/-- The checkpoint_end update of the token document: set status to used. -/
def setUsed (tokens : List TokenRecord) (docId : String) : List TokenRecord :=
  tokens.map (fun t => if t.docId = docId then { t with status := Status.used } else t)

/-- firestore.Increment on the balance field of one user document. -/
def creditBalance (balances : String → ℚ) (userId : String) (amount : ℚ) : String → ℚ :=
  fun u => if u = userId then balances u + amount else balances u

/-- The checkpoint_start handler. ipHeader is the cf-connecting-ip request
header, geo the get_ip_info oracle (none = non-success status), shorten the
shorten_with_shrinkme oracle (none = raised exception). Returns the result,
the updated database, and the trace of external effects. -/
def checkpoint_start (ipHeader : Option String) (geo : String → Option GeoInfo)
    (shorten : String → Option String) (token : String) (db : DB) :
    StartResult × DB × List Event :=
  match ipHeader with
  | none => (StartResult.noOrigin, db, [])
  | some user_ip =>
    match geo user_ip with
    | none => (StartResult.geoFailed, db, [Event.geoCall])
    | some info =>
      if token = "ping-dummy-token" then
        (StartResult.pingOk, db, [Event.geoCall])
      else
        match findToken db token with
        | none => (StartResult.tokenNotFound, db, [Event.geoCall, Event.tokenQuery])
        | some doc =>
          let newTokens :=
            stampToken db.tokens doc.docId info.query info.country
              (get_token_reward info.countryCode)
          let db1 : DB := { db with tokens := newTokens }
          match shorten (BASE_API_URL ++ "/checkpoint_end?token=" ++ token) with
          | none =>
            (StartResult.shorteningFailed, db1,
             [Event.geoCall, Event.tokenQuery, Event.tokenUpdate])
          | some link =>
            (StartResult.ok info.query info.country (get_token_reward info.countryCode) link,
             db1, [Event.geoCall, Event.tokenQuery, Event.tokenUpdate])

/-- The read-and-check phase of checkpoint_end, everything before the first
write: token query, status check, origin-header check, geolocation, origin
comparison, token_reward read. Returns either an early result or the found
document with its recorded reward, plus the effect trace so far. -/
def endCheckPhase (ipHeader : Option String) (geo : String → Option GeoInfo)
    (token : String) (db : DB) :
    (EndResult ⊕ (TokenRecord × ℚ)) × List Event :=
  match findToken db token with
  | none => (Sum.inl EndResult.tokenNotFound, [Event.tokenQuery])
  | some doc =>
    if doc.status ≠ Status.pending then
      (Sum.inl EndResult.tokenAlreadyUsed, [Event.tokenQuery])
    else
      match ipHeader with
      | none => (Sum.inl EndResult.noOrigin, [Event.tokenQuery])
      | some current_ip =>
        match geo current_ip with
        | none => (Sum.inl EndResult.geoFailed, [Event.tokenQuery, Event.geoCall])
        | some info =>
          if doc.initial_ip ≠ some info.query ∨ doc.initial_country ≠ some info.country then
            (Sum.inl EndResult.originMismatch, [Event.tokenQuery, Event.geoCall])
          else
            match doc.token_reward with
            | none => (Sum.inl EndResult.keyError, [Event.tokenQuery, Event.geoCall])
            | some reward => (Sum.inr (doc, reward), [Event.tokenQuery, Event.geoCall])

/-- The checkpoint_end handler: the check phase, then on success the status
update followed by the separate balance increment, as two distinct writes. -/
def checkpoint_end (ipHeader : Option String) (geo : String → Option GeoInfo)
    (token : String) (db : DB) : EndResult × DB × List Event :=
  match endCheckPhase ipHeader geo token db with
  | (Sum.inl r, evs) => (r, db, evs)
  | (Sum.inr (doc, reward), evs) =>
    let db1 : DB := { db with tokens := setUsed db.tokens doc.docId }
    let db2 : DB := { db1 with balances := creditBalance db1.balances doc.userId reward }
    (EndResult.ok reward, db2, evs ++ [Event.tokenUpdate, Event.userUpdate])

/-- Control state of one in-flight checkpoint_end request, split at the
database operations: ready (about to read), toWrite (checks passed, about to
write status), toCredit (status written, about to increment the balance),
done. -/
inductive ThreadState
  | ready
  | toWrite (docId userId : String) (amount : ℚ)
  | toCredit (docId userId : String) (amount : ℚ)
  | done (r : EndResult)
deriving DecidableEq, Repr

/-- One atomic step of an in-flight checkpoint_end request against the shared
database. The read-and-check phase is taken as a single step (a coarsening
that only removes interleavings); the status write and the balance increment
are separate steps, exactly as the source issues two separate updates. -/
def endStep (ipHeader : Option String) (geo : String → Option GeoInfo) (token : String)
    (ts : ThreadState) (db : DB) : ThreadState × DB :=
  match ts with
  | ThreadState.ready =>
    match endCheckPhase ipHeader geo token db with
    | (Sum.inl r, _) => (ThreadState.done r, db)
    | (Sum.inr (doc, reward), _) => (ThreadState.toWrite doc.docId doc.userId reward, db)
  | ThreadState.toWrite d u amount =>
    (ThreadState.toCredit d u amount, { db with tokens := setUsed db.tokens d })
  | ThreadState.toCredit _ u amount =>
    (ThreadState.done (EndResult.ok amount), { db with balances := creditBalance db.balances u amount })
  | ThreadState.done r => (ThreadState.done r, db)

/-- Run two concurrent checkpoint_end requests with identical inputs under a
schedule: true steps the first thread, false the second. -/
def runSched (ipHeader : Option String) (geo : String → Option GeoInfo) (token : String) :
    List Bool → ThreadState × ThreadState × DB → ThreadState × ThreadState × DB
  | [], s => s
  | b :: rest, (s1, s2, db) =>
    if b then
      let p := endStep ipHeader geo token s1 db
      runSched ipHeader geo token rest (p.1, s2, p.2)
    else
      let p := endStep ipHeader geo token s2 db
      runSched ipHeader geo token rest (s1, p.1, p.2)

/-! Concrete fixtures used by witnesses and counterexamples. -/

/-- A geolocation success: US origin confirmed as 1.2.3.4. -/
def infoUS : GeoInfo :=
  { country := "United States", countryCode := "US", query := "1.2.3.4" }

/-- Geolocation oracle that always succeeds with infoUS. -/
def geoUS : String → Option GeoInfo := fun _ => some infoUS

/-- A pending token already stamped by a start from the same origin. -/
def tokenPending : TokenRecord :=
  { docId := "d1", token := "t1", status := Status.pending, userId := "u1",
    initial_ip := some "1.2.3.4", initial_country := some "United States",
    token_reward := some 7.5 }

/-- The same token after redemption. -/
def tokenUsed : TokenRecord := { tokenPending with status := Status.used }

/-- A pending token as issued, before any start call: nothing stamped. -/
def tokenFresh : TokenRecord :=
  { docId := "d2", token := "t2", status := Status.pending, userId := "u1",
    initial_ip := none, initial_country := none, token_reward := none }

/-- All user balances zero. -/
def zeroBalances : String → ℚ := fun _ => 0

/-- Database holding the stamped pending token. -/
def dbPending : DB := { tokens := [tokenPending], balances := zeroBalances }

/-- Database holding the used token. -/
def dbUsed : DB := { tokens := [tokenUsed], balances := zeroBalances }

/-- Database holding the freshly issued, never-started token. -/
def dbFresh : DB := { tokens := [tokenFresh], balances := zeroBalances }

/-- Shortener oracle that succeeds. -/
def shortenOk : String → Option String := fun _ => some "https://shrinkme.io/abc"

/-- Shortener oracle that fails. -/
def shortenFail : String → Option String := fun _ => none

/-- Claim C6: get_token_reward is a total function on strings whose value is
tiered from the CPM rate: rate at least 16 gives 10, rate in [7, 16) gives
7.5, rate in (3.5, 7) gives 5, rate at most 3.5 gives 5, and a country code
absent from CPM_RATES (default rate 3.5) also gives 5. -/
theorem get_token_reward_tiers (c : String) :
    (16 ≤ cpmRate c → get_token_reward c = 10) ∧
    (7 ≤ cpmRate c → cpmRate c < 16 → get_token_reward c = 7.5) ∧
    (3.5 < cpmRate c → cpmRate c < 7 → get_token_reward c = 5) ∧
    (cpmRate c ≤ 3.5 → get_token_reward c = 5) ∧
    (CPM_RATES.find? (fun p => p.1 == c) = none → get_token_reward c = 5) := by
  have hdef : CPM_RATES.find? (fun p => p.1 == c) = none → cpmRate c = 3.5 := by
    intro h
    unfold cpmRate
    rw [h]
    show DEFAULT_CPM = 3.5
    unfold DEFAULT_CPM
    norm_num
  unfold get_token_reward
  refine ⟨?_, ?_, ?_, ?_, ?_⟩
  · intro h
    rw [if_pos (show cpmRate c ≥ 16 from h)]
  · intro h1 h2
    rw [if_neg (not_le.mpr h2), if_pos (show cpmRate c ≥ 7 from h1)]
  · intro h1 h2
    rw [if_neg (not_le.mpr (by linarith)), if_neg (not_le.mpr h2),
      if_pos (show cpmRate c > 3.50 by linarith)]
  · intro h
    rw [if_neg (not_le.mpr (by linarith)), if_neg (not_le.mpr (by linarith)),
      if_neg (not_lt.mpr (by linarith))]
  · intro h
    rw [if_neg (not_le.mpr (by rw [hdef h]; norm_num)),
      if_neg (not_le.mpr (by rw [hdef h]; norm_num)),
      if_neg (not_lt.mpr (by rw [hdef h]; norm_num))]

/-- Concrete rate of IE, read off the CPM table. -/
theorem cpmRate_IE : cpmRate "IE" = 16 := by
  have h : CPM_RATES.find? (fun p => p.1 == "IE") = some ("IE", 16.00) := rfl
  unfold cpmRate
  rw [h]
  norm_num

/-- Concrete rate of US, read off the CPM table. -/
theorem cpmRate_US : cpmRate "US" = 11 := by
  have h : CPM_RATES.find? (fun p => p.1 == "US") = some ("US", 11.00) := rfl
  unfold cpmRate
  rw [h]
  norm_num

/-- Concrete rate of DE, read off the CPM table. -/
theorem cpmRate_DE : cpmRate "DE" = 5 := by
  have h : CPM_RATES.find? (fun p => p.1 == "DE") = some ("DE", 5.00) := rfl
  unfold cpmRate
  rw [h]
  norm_num

/-- Witness for C6 at concrete codes: a rate-16 code, a mid-tier code, a
low-tier code and an unknown code. -/
theorem get_token_reward_tiers_witness :
    get_token_reward "IE" = 10 ∧ get_token_reward "US" = 7.5 ∧
    get_token_reward "DE" = 5 ∧ get_token_reward "ZZ" = 5 :=
  ⟨(get_token_reward_tiers "IE").1 (by rw [cpmRate_IE]),
   ((get_token_reward_tiers "US").2.1 (by rw [cpmRate_US]; norm_num)
     (by rw [cpmRate_US]; norm_num)),
   ((get_token_reward_tiers "DE").2.2.1 (by rw [cpmRate_DE]; norm_num)
     (by rw [cpmRate_DE]; norm_num)),
   (get_token_reward_tiers "ZZ").2.2.2.2 (by rfl)⟩

/-- Every document of a setUsed update that carries the updated id has status
used. -/
theorem setUsed_status (ts : List TokenRecord) (d : String) :
    ∀ t ∈ setUsed ts d, t.docId = d → t.status = Status.used := by
  intro t ht hd
  simp only [setUsed, List.mem_map] at ht
  obtain ⟨a, _, ha⟩ := ht
  by_cases h : a.docId = d
  · rw [if_pos h] at ha
    rw [← ha]
  · rw [if_neg h] at ha
    rw [← ha] at hd
    exact absurd hd h

/-- stampToken leaves every document's status unchanged. -/
theorem stampToken_map_status (ts : List TokenRecord) (d ip c : String) (r : ℚ) :
    (stampToken ts d ip c r).map TokenRecord.status = ts.map TokenRecord.status := by
  induction ts with
  | nil => rfl
  | cons t ts ih =>
    simp only [stampToken, List.map_cons] at ih ⊢
    rw [ih]
    congr 1
    split <;> rfl

/-- stampToken leaves every document's owner unchanged. -/
theorem stampToken_map_userId (ts : List TokenRecord) (d ip c : String) (r : ℚ) :
    (stampToken ts d ip c r).map TokenRecord.userId = ts.map TokenRecord.userId := by
  induction ts with
  | nil => rfl
  | cons t ts ih =>
    simp only [stampToken, List.map_cons] at ih ⊢
    rw [ih]
    congr 1
    split <;> rfl

/-- stampToken leaves every document's token value unchanged. -/
theorem stampToken_map_token (ts : List TokenRecord) (d ip c : String) (r : ℚ) :
    (stampToken ts d ip c r).map TokenRecord.token = ts.map TokenRecord.token := by
  induction ts with
  | nil => rfl
  | cons t ts ih =>
    simp only [stampToken, List.map_cons] at ih ⊢
    rw [ih]
    congr 1
    split <;> rfl

/-- stampToken leaves every document's id unchanged. -/
theorem stampToken_map_docId (ts : List TokenRecord) (d ip c : String) (r : ℚ) :
    (stampToken ts d ip c r).map TokenRecord.docId = ts.map TokenRecord.docId := by
  induction ts with
  | nil => rfl
  | cons t ts ih =>
    simp only [stampToken, List.map_cons] at ih ⊢
    rw [ih]
    congr 1
    split <;> rfl

/-- Claim C5: on a token whose status is used, checkpoint_end fails with
TokenAlreadyUsed and mutates nothing — the database is returned unchanged and
the only external effect is the token query. -/
theorem end_used_terminal (ipHeader : Option String) (geo : String → Option GeoInfo)
    (token : String) (db : DB) (doc : TokenRecord)
    (hfind : findToken db token = some doc) (hused : doc.status = Status.used) :
    checkpoint_end ipHeader geo token db =
      (EndResult.tokenAlreadyUsed, db, [Event.tokenQuery]) := by
  simp [checkpoint_end, endCheckPhase, hfind, hused]

/-- Witness for C5: checkpoint_end on the used token, with a matching origin,
is still rejected with no change to the database. -/
theorem end_used_terminal_witness :
    checkpoint_end (some "1.2.3.4") geoUS "t1" dbUsed =
      (EndResult.tokenAlreadyUsed, dbUsed, [Event.tokenQuery]) :=
  end_used_terminal (some "1.2.3.4") geoUS "t1" dbUsed tokenUsed (by rfl) (by rfl)

/-- Claim C4: on a pending token, when the freshly resolved address or country
differs from the recorded initial_ip/initial_country, checkpoint_end fails
with OriginMismatch and mutates nothing: the database (status and balances
included) is returned unchanged. -/
theorem end_origin_mismatch (ip : String) (geo : String → Option GeoInfo)
    (token : String) (db : DB) (doc : TokenRecord) (info : GeoInfo)
    (hfind : findToken db token = some doc) (hpend : doc.status = Status.pending)
    (hgeo : geo ip = some info)
    (hmm : doc.initial_ip ≠ some info.query ∨ doc.initial_country ≠ some info.country) :
    checkpoint_end (some ip) geo token db =
      (EndResult.originMismatch, db, [Event.tokenQuery, Event.geoCall]) := by
  unfold checkpoint_end endCheckPhase
  rw [hfind]
  simp only [hpend, ne_eq, not_true_eq_false, if_false, hgeo]
  rw [if_pos (by simpa using hmm)]

/-- Witness for C4: ending the stamped pending token from a different resolved
origin is rejected and the database is unchanged. -/
theorem end_origin_mismatch_witness :
    checkpoint_end (some "5.6.7.8")
        (fun _ => some { country := "Germany", countryCode := "DE", query := "5.6.7.8" })
        "t1" dbPending =
      (EndResult.originMismatch, dbPending, [Event.tokenQuery, Event.geoCall]) :=
  end_origin_mismatch "5.6.7.8"
    (fun _ => some { country := "Germany", countryCode := "DE", query := "5.6.7.8" })
    "t1" dbPending tokenPending
    { country := "Germany", countryCode := "DE", query := "5.6.7.8" }
    (by rfl) (by rfl) (by rfl) (by simp [tokenPending])

/-- Claim C3: on a pending token whose recorded initial_ip and initial_country
equal the freshly resolved address and country, checkpoint_end sets the
token's status to used, increments the owning user's balance by exactly the
token_reward recorded on the document (never a recomputed or client-supplied
value), and returns that credited amount. -/
theorem end_match_credits (ip : String) (geo : String → Option GeoInfo)
    (token : String) (db : DB) (doc : TokenRecord) (info : GeoInfo) (r : ℚ)
    (hfind : findToken db token = some doc) (hpend : doc.status = Status.pending)
    (hgeo : geo ip = some info)
    (hip : doc.initial_ip = some info.query)
    (hcountry : doc.initial_country = some info.country)
    (hr : doc.token_reward = some r) :
    checkpoint_end (some ip) geo token db =
      (EndResult.ok r,
       { tokens := setUsed db.tokens doc.docId,
         balances := creditBalance db.balances doc.userId r },
       [Event.tokenQuery, Event.geoCall, Event.tokenUpdate, Event.userUpdate]) ∧
    (checkpoint_end (some ip) geo token db).2.1.balances doc.userId
      = db.balances doc.userId + r ∧
    (∀ t ∈ (checkpoint_end (some ip) geo token db).2.1.tokens,
      t.docId = doc.docId → t.status = Status.used) := by
  have hrun : checkpoint_end (some ip) geo token db =
      (EndResult.ok r,
       { tokens := setUsed db.tokens doc.docId,
         balances := creditBalance db.balances doc.userId r },
       [Event.tokenQuery, Event.geoCall, Event.tokenUpdate, Event.userUpdate]) := by
    unfold checkpoint_end endCheckPhase
    rw [hfind]
    simp only [hpend, ne_eq, not_true_eq_false, if_false, hgeo, hip, hcountry, hr]
    simp
  refine ⟨hrun, ?_, ?_⟩
  · rw [hrun]
    simp [creditBalance]
  · rw [hrun]
    exact setUsed_status db.tokens doc.docId

/-- Witness for C3: ending the stamped pending token from the recorded origin
returns the recorded 7.5 reward and credits the owner's balance by 7.5. -/
theorem end_match_credits_witness :
    checkpoint_end (some "1.2.3.4") geoUS "t1" dbPending =
      (EndResult.ok 7.5,
       { tokens := setUsed dbPending.tokens tokenPending.docId,
         balances := creditBalance dbPending.balances tokenPending.userId 7.5 },
       [Event.tokenQuery, Event.geoCall, Event.tokenUpdate, Event.userUpdate]) ∧
    (checkpoint_end (some "1.2.3.4") geoUS "t1" dbPending).2.1.balances
        tokenPending.userId
      = dbPending.balances tokenPending.userId + 7.5 :=
  ⟨(end_match_credits "1.2.3.4" geoUS "t1" dbPending tokenPending infoUS 7.5
      (by rfl) (by rfl) (by rfl) (by rfl) (by rfl) (by rfl)).1,
   (end_match_credits "1.2.3.4" geoUS "t1" dbPending tokenPending infoUS 7.5
      (by rfl) (by rfl) (by rfl) (by rfl) (by rfl) (by rfl)).2.1⟩

/-- Counterexample to C2 as stated: the freshly issued token t2 exists in the
store but start was never called on it (nothing stamped); checkpoint_end on it
fails with OriginMismatch, not TokenNotFound. -/
theorem end_never_started_counterexample :
    (checkpoint_end (some "1.2.3.4") geoUS "t2" dbFresh).1 = EndResult.originMismatch ∧
    (checkpoint_end (some "1.2.3.4") geoUS "t2" dbFresh).1 ≠ EndResult.tokenNotFound := by
  refine ⟨rfl, ?_⟩
  show EndResult.originMismatch ≠ EndResult.tokenNotFound
  simp

/-- Claim C2 amended: checkpoint_end fails with TokenNotFound exactly when the
token id has no document in the store; a stored pending token on which start
was never called (initial_ip still absent) instead fails the origin
comparison with OriginMismatch, since the resolved address can never equal
the absent recorded one. Neither path mutates the database. -/
theorem end_unknown_or_unstamped (ipHeader : Option String) (geo : String → Option GeoInfo)
    (token : String) (db : DB) :
    (findToken db token = none →
      checkpoint_end ipHeader geo token db =
        (EndResult.tokenNotFound, db, [Event.tokenQuery])) ∧
    (∀ doc ip info, findToken db token = some doc → doc.status = Status.pending →
      doc.initial_ip = none → ipHeader = some ip → geo ip = some info →
      checkpoint_end ipHeader geo token db =
        (EndResult.originMismatch, db, [Event.tokenQuery, Event.geoCall])) := by
  constructor
  · intro hnone
    simp [checkpoint_end, endCheckPhase, hnone]
  · intro doc ip info hfind hpend hip hhdr hgeo
    subst hhdr
    unfold checkpoint_end endCheckPhase
    rw [hfind]
    simp only [hpend, ne_eq, not_true_eq_false, if_false, hgeo]
    rw [if_pos (by simp [hip])]

/-- Witness for C2 amended: an id with no document fails TokenNotFound, and
the stored never-started token t2 fails OriginMismatch. -/
theorem end_unknown_or_unstamped_witness :
    checkpoint_end (some "1.2.3.4") geoUS "zzz" dbFresh =
      (EndResult.tokenNotFound, dbFresh, [Event.tokenQuery]) ∧
    checkpoint_end (some "1.2.3.4") geoUS "t2" dbFresh =
      (EndResult.originMismatch, dbFresh, [Event.tokenQuery, Event.geoCall]) :=
  ⟨(end_unknown_or_unstamped (some "1.2.3.4") geoUS "zzz" dbFresh).1 (by rfl),
   (end_unknown_or_unstamped (some "1.2.3.4") geoUS "t2" dbFresh).2
     tokenFresh "1.2.3.4" infoUS (by rfl) (by rfl) (by rfl) (by rfl) (by rfl)⟩

/-- Counterexample to C7 as stated: with the origin header absent,
checkpoint_end on the used token t1 reports TokenAlreadyUsed, not the
missing-origin input error, and its effect trace contains the token-store
query — so for end the missing origin is not rejected before any lookup, and
the rule is not identical to start. -/
theorem end_missing_origin_counterexample :
    (checkpoint_end none geoUS "t1" dbUsed).1 = EndResult.tokenAlreadyUsed ∧
    (checkpoint_end none geoUS "t1" dbUsed).1 ≠ EndResult.noOrigin ∧
    Event.tokenQuery ∈ (checkpoint_end none geoUS "t1" dbUsed).2.2 := by
  refine ⟨rfl, ?_, ?_⟩
  · show EndResult.tokenAlreadyUsed ≠ EndResult.noOrigin
    simp
  · show Event.tokenQuery ∈ [Event.tokenQuery]
    simp

/-- Claim C7 amended: checkpoint_start rejects a missing origin header first,
before the geolocation call and before any token-store access, with no state
mutated; checkpoint_end performs the token query and status check first and
only then rejects the missing origin — before its geolocation call and, on
every such path, with no state mutated. -/
theorem missing_origin_handling (geo : String → Option GeoInfo)
    (shorten : String → Option String) (token : String) (db : DB) :
    checkpoint_start none geo shorten token db = (StartResult.noOrigin, db, []) ∧
    (checkpoint_end none geo token db).2.1 = db ∧
    Event.geoCall ∉ (checkpoint_end none geo token db).2.2 ∧
    (∀ doc, findToken db token = some doc → doc.status = Status.pending →
      checkpoint_end none geo token db = (EndResult.noOrigin, db, [Event.tokenQuery])) := by
  have hend : (checkpoint_end none geo token db).2.1 = db ∧
      Event.geoCall ∉ (checkpoint_end none geo token db).2.2 := by
    unfold checkpoint_end endCheckPhase
    cases hfind : findToken db token with
    | none => simp
    | some doc =>
      by_cases hpend : doc.status = Status.pending
      · simp [hpend]
      · simp [hpend]
  refine ⟨rfl, hend.1, hend.2, ?_⟩
  intro doc hfind hpend
  unfold checkpoint_end endCheckPhase
  rw [hfind]
  simp [hpend]

/-- Witness for C7 amended: start with no origin header is rejected with an
empty trace; end with no origin header on the pending token is rejected after
the token query with the database unchanged. -/
theorem missing_origin_handling_witness :
    checkpoint_start none geoUS shortenOk "t1" dbPending =
      (StartResult.noOrigin, dbPending, []) ∧
    checkpoint_end none geoUS "t1" dbPending =
      (EndResult.noOrigin, dbPending, [Event.tokenQuery]) :=
  ⟨(missing_origin_handling geoUS shortenOk "t1" dbPending).1,
   (missing_origin_handling geoUS shortenOk "t1" dbPending).2.2.2
     tokenPending (by rfl) (by rfl)⟩

/-- Claim C8: when the origin is present, geolocation succeeds, the token is
not the ping bypass and its document is found, checkpoint_start writes exactly
the three stamped fields onto that document — whatever the shortener does —
and changes nothing else: every document keeps its status (start never
changes status, so an already-used token is re-stamped without being
blocked), owner, token value and id, and the balances are untouched. -/
theorem start_stamps_only (ip : String) (geo : String → Option GeoInfo)
    (shorten : String → Option String) (token : String) (db : DB)
    (doc : TokenRecord) (info : GeoInfo)
    (hping : token ≠ "ping-dummy-token")
    (hgeo : geo ip = some info)
    (hfind : findToken db token = some doc) :
    (checkpoint_start (some ip) geo shorten token db).2.1.tokens
      = stampToken db.tokens doc.docId info.query info.country
          (get_token_reward info.countryCode) ∧
    (checkpoint_start (some ip) geo shorten token db).2.1.balances = db.balances ∧
    (checkpoint_start (some ip) geo shorten token db).2.1.tokens.map TokenRecord.status
      = db.tokens.map TokenRecord.status ∧
    (checkpoint_start (some ip) geo shorten token db).2.1.tokens.map TokenRecord.userId
      = db.tokens.map TokenRecord.userId ∧
    (checkpoint_start (some ip) geo shorten token db).2.1.tokens.map TokenRecord.token
      = db.tokens.map TokenRecord.token ∧
    (checkpoint_start (some ip) geo shorten token db).2.1.tokens.map TokenRecord.docId
      = db.tokens.map TokenRecord.docId := by
  have hdb : (checkpoint_start (some ip) geo shorten token db).2.1
      = { tokens := stampToken db.tokens doc.docId info.query info.country
            (get_token_reward info.countryCode),
          balances := db.balances } := by
    cases hs : shorten (BASE_API_URL ++ "/checkpoint_end?token=" ++ token) with
    | none => simp [checkpoint_start, hgeo, hfind, hping, hs]
    | some link => simp [checkpoint_start, hgeo, hfind, hping, hs]
  rw [hdb]
  exact ⟨rfl, rfl, stampToken_map_status .., stampToken_map_userId ..,
    stampToken_map_token .., stampToken_map_docId ..⟩

/-- Witness for C8: starting the already-used token t1 re-stamps its three
fields, leaves its status used, and leaves the balances untouched. -/
theorem start_stamps_only_witness :
    (checkpoint_start (some "1.2.3.4") geoUS shortenOk "t1" dbUsed).2.1.tokens
      = stampToken dbUsed.tokens tokenUsed.docId infoUS.query infoUS.country
          (get_token_reward infoUS.countryCode) ∧
    (checkpoint_start (some "1.2.3.4") geoUS shortenOk "t1" dbUsed).2.1.balances
      = dbUsed.balances ∧
    (checkpoint_start (some "1.2.3.4") geoUS shortenOk "t1" dbUsed).2.1.tokens.map
        TokenRecord.status
      = dbUsed.tokens.map TokenRecord.status :=
  ⟨(start_stamps_only "1.2.3.4" geoUS shortenOk "t1" dbUsed tokenUsed infoUS
      (by simp) (by rfl) (by rfl)).1,
   (start_stamps_only "1.2.3.4" geoUS shortenOk "t1" dbUsed tokenUsed infoUS
      (by simp) (by rfl) (by rfl)).2.1,
   (start_stamps_only "1.2.3.4" geoUS shortenOk "t1" dbUsed tokenUsed infoUS
      (by simp) (by rfl) (by rfl)).2.2.1⟩

/-- Claim C9: when the shortener fails after the token document was found,
checkpoint_start surfaces ShorteningFailed to the caller, yet the resulting
database keeps the freshly stamped initial_ip, initial_country and
token_reward — the stamp of the preceding step is not rolled back. -/
theorem start_shorten_fail_keeps_stamp (ip : String) (geo : String → Option GeoInfo)
    (shorten : String → Option String) (token : String) (db : DB)
    (doc : TokenRecord) (info : GeoInfo)
    (hping : token ≠ "ping-dummy-token")
    (hgeo : geo ip = some info)
    (hfind : findToken db token = some doc)
    (hshort : shorten (BASE_API_URL ++ "/checkpoint_end?token=" ++ token) = none) :
    checkpoint_start (some ip) geo shorten token db =
      (StartResult.shorteningFailed,
       { tokens := stampToken db.tokens doc.docId info.query info.country
           (get_token_reward info.countryCode),
         balances := db.balances },
       [Event.geoCall, Event.tokenQuery, Event.tokenUpdate]) := by
  simp [checkpoint_start, hgeo, hfind, hping, hshort]

/-- Witness for C9: with a failing shortener, start on the pending token
reports the failure while the database holds the stamped fields. -/
theorem start_shorten_fail_keeps_stamp_witness :
    checkpoint_start (some "1.2.3.4") geoUS shortenFail "t1" dbPending =
      (StartResult.shorteningFailed,
       { tokens := stampToken dbPending.tokens tokenPending.docId infoUS.query
           infoUS.country (get_token_reward infoUS.countryCode),
         balances := dbPending.balances },
       [Event.geoCall, Event.tokenQuery, Event.tokenUpdate]) :=
  start_shorten_fail_keeps_stamp "1.2.3.4" geoUS shortenFail "t1" dbPending
    tokenPending infoUS (by simp) (by rfl) (by rfl) (by rfl)

/-- Claim C10: for the reserved id ping-dummy-token, once the origin header is
present and geolocation succeeds, checkpoint_start returns the ping success
response with the database unchanged and a trace containing only the
geolocation call — no token or user record is read or written — for every
database, whether or not a document with that token value exists. -/
theorem start_ping_bypass (ip : String) (geo : String → Option GeoInfo)
    (shorten : String → Option String) (db : DB) (info : GeoInfo)
    (hgeo : geo ip = some info) :
    checkpoint_start (some ip) geo shorten "ping-dummy-token" db =
      (StartResult.pingOk, db, [Event.geoCall]) := by
  simp [checkpoint_start, hgeo]

/-- Witness for C10: the ping bypass on a database that has no such token. -/
theorem start_ping_bypass_witness :
    checkpoint_start (some "8.8.8.8") geoUS shortenOk "ping-dummy-token" dbPending =
      (StartResult.pingOk, dbPending, [Event.geoCall]) :=
  start_ping_bypass "8.8.8.8" geoUS shortenOk dbPending infoUS (by rfl)

/-- Claim C1 fails on the code: two concurrent checkpoint_end calls for the
same pending, correctly stamped token, scheduled so that both pass the
read-and-check phase before either writes, both report success and the
owner's balance is credited twice (15 instead of one 7.5 credit); moreover
after the first status write and before the matching credit there is an
observable state whose token is already used while the balance is still
untouched, so the transition and the credit are not applied together. -/
theorem concurrent_end_double_credit :
    (runSched (some "1.2.3.4") geoUS "t1" [true, false, true, true, false, false]
      (ThreadState.ready, ThreadState.ready, dbPending)).1
        = ThreadState.done (EndResult.ok 7.5) ∧
    (runSched (some "1.2.3.4") geoUS "t1" [true, false, true, true, false, false]
      (ThreadState.ready, ThreadState.ready, dbPending)).2.1
        = ThreadState.done (EndResult.ok 7.5) ∧
    (runSched (some "1.2.3.4") geoUS "t1" [true, false, true, true, false, false]
      (ThreadState.ready, ThreadState.ready, dbPending)).2.2.balances "u1" = 15 ∧
    (findToken (runSched (some "1.2.3.4") geoUS "t1" [true, false, true]
      (ThreadState.ready, ThreadState.ready, dbPending)).2.2 "t1").map TokenRecord.status
        = some Status.used ∧
    (runSched (some "1.2.3.4") geoUS "t1" [true, false, true]
      (ThreadState.ready, ThreadState.ready, dbPending)).2.2.balances "u1" = 0 := by
  refine ⟨rfl, rfl, ?_, rfl, rfl⟩
  show (0 : ℚ) + 7.5 + 7.5 = 15
  norm_num

end Checkpoint
